import Mathlib

/-!
Verification of the NSW tidal-information core: the region/coastal classifier
(`utils/location_validator.py`) and the tidal-curve simulator / data-source
selector (`utils/tidal_api.py`), shallowly embedded in Lean 4.

Modelling conventions:
* Python decimal literals (coordinates, constants) are embedded as exact
  rationals `ℚ`; transcendental computations (haversine, the chart's true
  sine) live in `ℝ`.
* `datetime.datetime.now()` is injected as an explicit instant: a natural
  number of minutes, with `.hour = t / 60 % 24` and `.minute = t % 60`,
  matching the only datetime fields the simulator reads. Forecast event
  instants (`now + timedelta(hours=...)`) are carried as rational minute
  counts; `strftime` display formatting is not modelled.
* Python's `round(x, 2)` (round-half-to-even at two decimals) is embedded
  explicitly as `pyRound2` / `pyRound2R`.
* Python's float `%` on nonnegative operands is `a - b * ⌊a / b⌋` (`qmod`).
* The two external collaborators — the Nominatim reverse geocoder and the
  WillyWeather provider branch — are injected as explicit outcome values,
  exactly at the seams where the source calls out to the network.
-/

namespace NSWTidal

/-! ### Shared numeric helpers -/

/-- Python float modulo `a % b` for `b > 0`: `a - b * ⌊a / b⌋`. -/
def qmod (a b : ℚ) : ℚ := a - b * ⌊a / b⌋

/-- Python `round(q, 2)`: round to two decimal places, ties to even. -/
def pyRound2 (q : ℚ) : ℚ :=
  let s := q * 100
  let f : ℤ := ⌊s⌋
  let r := s - f
  if r < 1/2 then (f : ℚ) / 100
  else if 1/2 < r then ((f : ℚ) + 1) / 100
  else if f % 2 = 0 then (f : ℚ) / 100 else ((f : ℚ) + 1) / 100

open Classical in
/-- Python `round(x, 2)` on the real result of the chart's sine formula. -/
noncomputable def pyRound2R (x : ℝ) : ℝ :=
  let s := x * 100
  let f : ℤ := ⌊s⌋
  let r := s - f
  if r < 1/2 then (f : ℝ) / 100
  else if 1/2 < r then ((f : ℝ) + 1) / 100
  else if f % 2 = 0 then (f : ℝ) / 100 else ((f : ℝ) + 1) / 100

/-! ### Geo-distance utility (`haversine_distance`) -/

/-- `math.radians`: degrees to radians. -/
noncomputable def radians (x : ℝ) : ℝ := x * Real.pi / 180

/-- `haversine_distance(lat1, lon1, lat2, lon2)` from
`utils/location_validator.py`: great-circle distance on a sphere of
radius 6371 km. -/
noncomputable def haversine_distance (lat1 lon1 lat2 lon2 : ℝ) : ℝ :=
  let lat1r := radians lat1
  let lon1r := radians lon1
  let lat2r := radians lat2
  let lon2r := radians lon2
  let dlon := lon2r - lon1r
  let dlat := lat2r - lat1r
  let a := Real.sin (dlat / 2) ^ 2 +
    Real.cos lat1r * Real.cos lat2r * Real.sin (dlon / 2) ^ 2
  let c := 2 * Real.arcsin (Real.sqrt a)
  c * 6371

/-! ### Region/coastal classifier (`is_valid_nsw_location`) -/

/-- NSW bounding-box constant `NSW_MIN_LAT = -37.5`. -/
def NSW_MIN_LAT : ℚ := -75/2

/-- NSW bounding-box constant `NSW_MAX_LAT = -28.0`. -/
def NSW_MAX_LAT : ℚ := -28

/-- NSW bounding-box constant `NSW_MIN_LON = 140.999922`. -/
def NSW_MIN_LON : ℚ := 140999922/1000000

/-- NSW bounding-box constant `NSW_MAX_LON = 153.638747`. -/
def NSW_MAX_LON : ℚ := 153638747/1000000

/-- Coastal threshold constant `COASTAL_DISTANCE_KM = 20`. -/
def COASTAL_DISTANCE_KM : ℚ := 20

/-- One entry of the static `NSW_COASTAL_LOCATIONS` table. -/
structure CoastalLocation where
  name : String
  lat : ℚ
  lon : ℚ

/-- The static `NSW_COASTAL_LOCATIONS` reference table. -/
def NSW_COASTAL_LOCATIONS : List CoastalLocation :=
  [⟨"Sydney", -33865143/1000000, 151209900/1000000⟩,
   ⟨"Newcastle", -32916668/1000000, 151750000/1000000⟩,
   ⟨"Wollongong", -34425072/1000000, 150893143/1000000⟩,
   ⟨"Port Macquarie", -31433334/1000000, 152900000/1000000⟩,
   ⟨"Coffs Harbour", -30296665/1000000, 153114136/1000000⟩,
   ⟨"Byron Bay", -28647980/1000000, 153618698/1000000⟩,
   ⟨"Batemans Bay", -35708332/1000000, 150174728/1000000⟩,
   ⟨"Eden", -37063755/1000000, 149900543/1000000⟩,
   ⟨"Port Stephens", -32716667/1000000, 152166672/1000000⟩,
   ⟨"Jervis Bay", -35040279/1000000, 150727844/1000000⟩]

/-- Python's `min` over a nonempty list (the `[]` branch is dead code:
`find_distance_to_coast` always applies it to the ten anchor distances). -/
noncomputable def listMin : List ℝ → ℝ
  | [] => 0
  | x :: xs => xs.foldl min x

/-- `find_distance_to_coast(latitude, longitude)`: minimum haversine distance
from the coordinate to the static coastal anchors. -/
noncomputable def find_distance_to_coast (latitude longitude : ℚ) : ℝ :=
  listMin (NSW_COASTAL_LOCATIONS.map fun c =>
    haversine_distance (latitude : ℝ) (longitude : ℝ) (c.lat : ℝ) (c.lon : ℝ))

/-- The structured address returned by the Nominatim collaborator
(`location.raw["address"]`); `mentionsNSW` abstracts the substring test
`"nsw" in str(address).lower() or "new south wales" in str(address).lower()`. -/
structure Address where
  state_district : Option String
  county : Option String
  city : Option String
  town : Option String
  village : Option String
  mentionsNSW : Bool

/-- Outcome of the reverse-geocoding collaborator call in
`is_valid_nsw_location`: the `GeocoderTimedOut`/`GeocoderUnavailable`
exception branch, the "no location / no address" branch, or a structured
address. -/
inductive GeocodeOutcome where
  | unavailable : GeocodeOutcome
  | noAddress : GeocodeOutcome
  | address : Address → GeocodeOutcome

/-- Does this geocoding outcome trigger the geocoding-disagreement rejection
(address present but not mentioning NSW)? -/
def geoRejects : GeocodeOutcome → Bool
  | .address a => !a.mentionsNSW
  | _ => false

/-- The `location_info` dictionary built by `is_valid_nsw_location`;
`coast_distance = none` models the initial `"Unknown"` sentinel. -/
structure LocationInfo where
  lat : ℚ
  lon : ℚ
  state : String
  country : String
  area : String
  locality : String
  coast_distance : Option ℝ

/-- The second component of `is_valid_nsw_location`'s return value: either an
error dictionary `{"error": msg}` or a populated `location_info`. -/
inductive LocationResult where
  | err : String → LocationResult
  | info : LocationInfo → LocationResult

/-- Bounding-box test of `is_valid_nsw_location` (the condition that is
negated in the source's early `return`). -/
def inNSWBox (lat lon : ℚ) : Bool :=
  decide (NSW_MIN_LAT ≤ lat ∧ lat ≤ NSW_MAX_LAT ∧
    NSW_MIN_LON ≤ lon ∧ lon ≤ NSW_MAX_LON)

/-- The initial `location_info` dictionary (before enrichment). -/
def baseInfo (lat lon : ℚ) : LocationInfo :=
  ⟨lat, lon, "NSW", "Australia", "Unknown", "Unknown", none⟩

open Classical in
/-- Tail of `is_valid_nsw_location`: compute `coast_distance`, store it in
`location_info`, and return `(is_coastal, location_info)`. -/
noncomputable def coastalCheck (lat lon : ℚ) (li : LocationInfo) :
    Bool × LocationResult :=
  let coast_distance := find_distance_to_coast lat lon
  (decide (coast_distance ≤ (COASTAL_DISTANCE_KM : ℝ)),
   .info { li with coast_distance := some coast_distance })

/-- `is_valid_nsw_location(latitude, longitude)` with the reverse-geocoding
collaborator's outcome injected as `g`. -/
noncomputable def is_valid_nsw_location (g : GeocodeOutcome) (lat lon : ℚ) :
    Bool × LocationResult :=
  if inNSWBox lat lon then
    match g with
    | .address a =>
      let li := { baseInfo lat lon with
        area := a.state_district.getD (a.county.getD "Unknown NSW Region"),
        locality := a.city.getD (a.town.getD (a.village.getD "Unknown")) }
      if a.mentionsNSW then coastalCheck lat lon li
      else (false, .err "Location is outside NSW according to geocoding")
    | _ => coastalCheck lat lon (baseInfo lat lon)
  else (false, .err "Location is outside NSW boundaries")

/-! ### Tidal-curve simulator (`generate_simulated_tidal_data`) -/

/-- The literal `3.14159` the simulator uses in place of π. -/
def pyPi : ℚ := 314159/100000

/-- Simulator constant `period = 12.42` hours (lunar semi-diurnal). -/
def period : ℚ := 1242/100

/-- Simulator constant `baseline = 1.5` metres (mean sea level). -/
def baseline : ℚ := 3/2

/-- `amplitude = 0.8 + (abs(latitude) % 10) / 50`. -/
def amplitude (latitude : ℚ) : ℚ := 4/5 + qmod |latitude| 10 / 50

/-- `datetime.hour` of an instant given as total minutes. -/
def hourOf (t : ℕ) : ℕ := t / 60 % 24

/-- `datetime.minute` of an instant given as total minutes. -/
def minuteOf (t : ℕ) : ℕ := t % 60

/-- `hour_in_cycle = (hour + minute / 60) % period` at instant `t`. -/
def hourInCycle (t : ℕ) : ℚ :=
  qmod ((hourOf t : ℚ) + (minuteOf t : ℚ) / 60) period

/-- `normalized_time = (hour_in_cycle / period) * 2 * 3.14159` at instant `t`
(recomputed by the simulator both at `now` and at each chart point's own
time). -/
def normalizedTime (t : ℕ) : ℚ := hourInCycle t / period * 2 * pyPi

/-- The `current_tide` dictionary; `timestamp` carries the raw instant in
place of the `strftime` rendering. -/
structure CurrentTide where
  height : ℚ
  status : String
  trend : String
  timestamp : ℕ
  deriving DecidableEq

/-- One entry of `forecast_tides`; `time` is the event instant in (rational)
minutes in place of the `strftime` rendering. -/
structure ForecastEvent where
  type : String
  time : ℚ
  height : ℚ
  deriving DecidableEq

/-- One entry of `chart_data`; the height keeps the real-valued true-sine
formula of the source. -/
structure ChartPoint where
  time : ℕ
  height : ℝ
  type : String

/-- The dictionary returned by both branches of `get_tidal_data`. -/
structure TidalSnapshot where
  current : CurrentTide
  forecast : List ForecastEvent
  chart_data : List ChartPoint

/-- `generate_simulated_tidal_data(latitude, longitude)` from
`utils/tidal_api.py`, with `datetime.datetime.now()` injected as the
instant `now` (total minutes). -/
noncomputable def generate_simulated_tidal_data
    (latitude longitude : ℚ) (now : ℕ) : TidalSnapshot :=
  let amp := amplitude latitude
  let hour_in_cycle := hourInCycle now
  let is_rising := hour_in_cycle < period / 2
  let current_height := baseline + amp *
    (if is_rising then -1 * ((normalizedTime now - pyPi / 2) / pyPi)
     else (normalizedTime now - pyPi / 2) / pyPi)
  let is_high := 8/10 * period / 2 < hour_in_cycle ∧
    hour_in_cycle < 12/10 * period / 2
  let current_tide : CurrentTide :=
    { height := pyRound2 current_height,
      status := if is_high then "Near High"
        else if 3/10 < hour_in_cycle / period ∧ hour_in_cycle / period < 7/10
        then "Mid" else "Near Low",
      trend := if is_rising then "Rising" else "Falling",
      timestamp := now }
  let hours_to_next := if hour_in_cycle < period / 2
    then period / 2 - hour_in_cycle else period - hour_in_cycle
  let next_tide_time : ℚ := (now : ℚ) + hours_to_next * 60
  let next_tide_type : String := if is_rising then "Low" else "High"
  let next_tide_height := if next_tide_type = "Low"
    then baseline - amp else baseline + amp
  let first : ForecastEvent :=
    ⟨next_tide_type, next_tide_time, pyRound2 next_tide_height⟩
  let subsequent := (List.range' 1 3).map fun (i : ℕ) =>
    let subsequent_tide_type : String :=
      if (i % 2 = 1 ∧ next_tide_type = "Low") ∨
         (i % 2 = 0 ∧ next_tide_type = "High") then "High" else "Low"
    let subsequent_tide_height := if subsequent_tide_type = "High"
      then baseline + amp else baseline - amp
    (⟨subsequent_tide_type, next_tide_time + period / 2 * (i : ℚ) * 60,
      pyRound2 subsequent_tide_height⟩ : ForecastEvent)
  let forecast_tides := first :: subsequent
  let chart_data := (List.range 96).map fun i =>
    let point_time := now + 30 * i
    let point_height : ℝ :=
      (baseline : ℝ) + (amp : ℝ) * Real.sin ((normalizedTime point_time : ℚ) : ℝ)
    let point_type : String := if i % 12 = 0
      then (if i / 12 % 2 = 0 then "High" else "Low") else "Normal"
    (⟨point_time, pyRound2R point_height, point_type⟩ : ChartPoint)
  ⟨current_tide, forecast_tides, chart_data⟩

/-! ### Data-source selector (`get_tidal_data`) -/

/-- `get_tidal_data(latitude, longitude)` with the `WILLYWEATHER_API_KEY`
environment value injected as `apiKey` and the whole credentialed branch
(station search, per-station forecast fetch, normalisation, and its
`None`-on-failure error handling) injected as the collaborator outcome
`ext`, exactly at the `if not API_KEY` seam of the source. -/
noncomputable def get_tidal_data (apiKey : String) (ext : Option TidalSnapshot)
    (latitude longitude : ℚ) (now : ℕ) : Option TidalSnapshot :=
  if apiKey = "" then some (generate_simulated_tidal_data latitude longitude now)
  else ext

/-! ### Helper lemmas -/

lemma list_min_helper (x : ℝ) : 0 ≤ 2 * Real.arcsin (Real.sqrt x) * 6371 := by
  have h := Real.arcsin_nonneg.mpr (Real.sqrt_nonneg x)
  linarith

lemma sin_sq_swap (x y : ℝ) :
    Real.sin ((x - y) / 2) ^ 2 = Real.sin ((y - x) / 2) ^ 2 := by
  rw [show (x - y) / 2 = -((y - x) / 2) by ring, Real.sin_neg]
  ring

/-! ### Claim theorems -/

/-- C2: for every coordinate outside the NSW bounding box,
`is_valid_nsw_location` returns `(false, boundary error)` immediately, and
the result does not depend on the geocoding collaborator's outcome at all. -/
theorem claim_C2 (lat lon : ℚ) (g : GeocodeOutcome)
    (hbox : inNSWBox lat lon = false) :
    is_valid_nsw_location g lat lon =
      (false, .err "Location is outside NSW boundaries") ∧
    ∀ g', is_valid_nsw_location g lat lon = is_valid_nsw_location g' lat lon := by
  constructor
  · simp [is_valid_nsw_location, hbox]
  · intro g'
    simp [is_valid_nsw_location, hbox]

/-- Witness for C2 at the spec's example coordinate `(-10.0, 145.0)`
(latitude outside the box, longitude inside), with the geocoder injected as
unavailable. -/
theorem claim_C2_witness :
    inNSWBox (-10) 145 = false ∧
    (is_valid_nsw_location .unavailable (-10) 145 =
      (false, .err "Location is outside NSW boundaries") ∧
     ∀ g', is_valid_nsw_location .unavailable (-10) 145 =
       is_valid_nsw_location g' (-10) 145) :=
  ⟨by norm_num [inNSWBox, NSW_MIN_LAT, NSW_MAX_LAT, NSW_MIN_LON, NSW_MAX_LON],
   claim_C2 (-10) 145 .unavailable
     (by norm_num [inNSWBox, NSW_MIN_LAT, NSW_MAX_LAT, NSW_MIN_LON, NSW_MAX_LON])⟩

/-- C10: the classifier's second return component is an error dictionary
(carrying only a message) exactly when the bounding-box or the
geocoding-disagreement step rejects, and it is a populated `location_info`
carrying the computed `coast_distance` exactly when neither rejection
occurred. -/
theorem claim_C10 (lat lon : ℚ) (g : GeocodeOutcome) :
    ((∃ msg, (is_valid_nsw_location g lat lon).2 = .err msg) ↔
      (inNSWBox lat lon = false ∨ geoRejects g = true)) ∧
    ((∃ li, (is_valid_nsw_location g lat lon).2 = .info li ∧
        li.coast_distance = some (find_distance_to_coast lat lon)) ↔
      (inNSWBox lat lon = true ∧ geoRejects g = false)) := by
  cases hbox : inNSWBox lat lon with
  | false =>
    constructor
    · simp [is_valid_nsw_location, hbox]
    · simp [is_valid_nsw_location, hbox]
  | true =>
    cases g with
    | address a =>
      cases hm : a.mentionsNSW with
      | false =>
        constructor
        · simp [is_valid_nsw_location, hbox, hm, geoRejects]
        · simp [is_valid_nsw_location, hbox, hm, geoRejects]
      | true =>
        constructor
        · simp [is_valid_nsw_location, hbox, hm, geoRejects, coastalCheck]
        · simp [is_valid_nsw_location, hbox, hm, geoRejects, coastalCheck]
    | unavailable =>
      constructor
      · simp [is_valid_nsw_location, hbox, geoRejects, coastalCheck]
      · simp [is_valid_nsw_location, hbox, geoRejects, coastalCheck]
    | noAddress =>
      constructor
      · simp [is_valid_nsw_location, hbox, geoRejects, coastalCheck]
      · simp [is_valid_nsw_location, hbox, geoRejects, coastalCheck]

/-- C1: for every in-box coordinate whose geocoding outcome does not trigger
the disagreement rejection, the classifier returns valid iff the minimum
haversine distance to the static coastal anchors is at most 20 km, and when
that distance exceeds 20 km it returns invalid with the computed
`coast_distance` stored in the returned `location_info`. -/
theorem claim_C1 (lat lon : ℚ) (g : GeocodeOutcome)
    (hbox : inNSWBox lat lon = true) (hg : geoRejects g = false) :
    ((is_valid_nsw_location g lat lon).1 = true ↔
      find_distance_to_coast lat lon ≤ (COASTAL_DISTANCE_KM : ℝ)) ∧
    ((COASTAL_DISTANCE_KM : ℝ) < find_distance_to_coast lat lon →
      (is_valid_nsw_location g lat lon).1 = false ∧
      ∃ li, (is_valid_nsw_location g lat lon).2 = .info li ∧
        li.coast_distance = some (find_distance_to_coast lat lon)) := by
  have key : ∃ li, is_valid_nsw_location g lat lon = coastalCheck lat lon li := by
    cases g with
    | address a =>
      have hm : a.mentionsNSW = true := by
        cases hma : a.mentionsNSW with
        | false => rw [geoRejects, hma] at hg; exact absurd hg (by simp)
        | true => rfl
      exact ⟨{ baseInfo lat lon with
          area := a.state_district.getD (a.county.getD "Unknown NSW Region"),
          locality := a.city.getD (a.town.getD (a.village.getD "Unknown")) },
        by simp [is_valid_nsw_location, hbox, hm]⟩
    | unavailable =>
      exact ⟨baseInfo lat lon, by simp [is_valid_nsw_location, hbox]⟩
    | noAddress =>
      exact ⟨baseInfo lat lon, by simp [is_valid_nsw_location, hbox]⟩
  obtain ⟨li, hres⟩ := key
  rw [hres]
  constructor
  · simp [coastalCheck]
  · intro h
    refine ⟨?_, ?_⟩
    · simp only [coastalCheck, decide_eq_false_iff_not, not_le]
      exact h
    · exact ⟨{ li with coast_distance := some (find_distance_to_coast lat lon) },
        by simp [coastalCheck], rfl⟩

/-- Witness for C1 at the in-box coordinate `(-33, 151)` with the geocoder
injected as unavailable. -/
theorem claim_C1_witness :
    inNSWBox (-33) 151 = true ∧ geoRejects .unavailable = false ∧
    (((is_valid_nsw_location .unavailable (-33) 151).1 = true ↔
       find_distance_to_coast (-33) 151 ≤ (COASTAL_DISTANCE_KM : ℝ)) ∧
     ((COASTAL_DISTANCE_KM : ℝ) < find_distance_to_coast (-33) 151 →
       (is_valid_nsw_location .unavailable (-33) 151).1 = false ∧
       ∃ li, (is_valid_nsw_location .unavailable (-33) 151).2 = .info li ∧
         li.coast_distance = some (find_distance_to_coast (-33) 151))) :=
  ⟨by norm_num [inNSWBox, NSW_MIN_LAT, NSW_MAX_LAT, NSW_MIN_LON, NSW_MAX_LON],
   rfl,
   claim_C1 (-33) 151 .unavailable
     (by norm_num [inNSWBox, NSW_MIN_LAT, NSW_MAX_LAT, NSW_MIN_LON, NSW_MAX_LON])
     rfl⟩

/-- C8 counterexample: the haversine distance between `(0, 0)` and `(0, 360)`
is zero although the two coordinate pairs are distinct, refuting
"`distance_km(a, b) == 0` if and only if `a == b`" on unconstrained degree
inputs. -/
theorem claim_C8_counterexample :
    haversine_distance 0 0 0 360 = 0 ∧
    ¬ (((0 : ℝ), (360 : ℝ)) = ((0 : ℝ), (0 : ℝ))) := by
  constructor
  · simp only [haversine_distance, radians]
    rw [show ((0 : ℝ) * Real.pi / 180) = 0 by ring]
    rw [show ((360 : ℝ) * Real.pi / 180 - 0) / 2 = Real.pi by ring]
    simp [Real.sin_pi, Real.arcsin_zero]
  · simp

/-- C8 (amended): the haversine distance is nonnegative and symmetric, and
`distance_km(p, p) = 0` for every `p`; but zero distance does not imply
equal inputs (see the counterexample at longitudes differing by 360°). -/
theorem claim_C8_amended (lat1 lon1 lat2 lon2 : ℝ) :
    0 ≤ haversine_distance lat1 lon1 lat2 lon2 ∧
    haversine_distance lat1 lon1 lat2 lon2 =
      haversine_distance lat2 lon2 lat1 lon1 ∧
    haversine_distance lat1 lon1 lat1 lon1 = 0 := by
  refine ⟨?_, ?_, ?_⟩
  · simp only [haversine_distance]
    exact list_min_helper _
  · simp only [haversine_distance]
    rw [sin_sq_swap (radians lat2) (radians lat1),
      sin_sq_swap (radians lon2) (radians lon1),
      mul_comm (Real.cos (radians lat1)) (Real.cos (radians lat2))]
  · simp only [haversine_distance, sub_self, zero_div]
    simp [Real.arcsin_zero]

/-- C9: the simulator's output is independent of longitude — only latitude
and the injected instant influence the generated snapshot. -/
theorem claim_C9 (lat lon1 lon2 : ℚ) (t : ℕ) :
    generate_simulated_tidal_data lat lon1 t =
      generate_simulated_tidal_data lat lon2 t := rfl

/-- C7: with no provider credential configured, `get_tidal_data` delegates to
the simulator and never returns `None`, whatever the provider branch would
have produced; the simulated snapshot is complete (a current record, 4
forecast events, 96 chart points). -/
theorem claim_C7 (ext : Option TidalSnapshot) (lat lon : ℚ) (t : ℕ) :
    get_tidal_data "" ext lat lon t =
      some (generate_simulated_tidal_data lat lon t) ∧
    (get_tidal_data "" ext lat lon t).isSome = true ∧
    (generate_simulated_tidal_data lat lon t).forecast.length = 4 ∧
    (generate_simulated_tidal_data lat lon t).chart_data.length = 96 := by
  refine ⟨rfl, rfl, ?_, ?_⟩
  · have h3 : List.range' 1 3 = [1, 2, 3] := rfl
    simp [generate_simulated_tidal_data, h3]
  · simp [generate_simulated_tidal_data]

lemma hourInCycle_zero : hourInCycle 0 = 0 := by
  norm_num [hourInCycle, hourOf, minuteOf, qmod, period]

lemma amplitude_sample : amplitude (1801/200) = 9801/10000 := by
  rw [amplitude, qmod, abs_of_pos (show (0 : ℚ) < 1801/200 by norm_num)]
  norm_num

lemma current_height_sample :
    (generate_simulated_tidal_data (1801/200) 0 0).current.height = 199/100 := by
  have hr0 : hourInCycle 0 < period / 2 := by
    rw [hourInCycle_zero]; norm_num [period]
  simp only [generate_simulated_tidal_data, if_pos hr0]
  rw [amplitude_sample, show normalizedTime 0 = 0 by
    rw [normalizedTime, hourInCycle_zero]; norm_num]
  rw [baseline, pyPi, pyRound2]
  norm_num

lemma hourInCycle_div_period_ne_three_tenths (t : ℕ) :
    hourInCycle t / period ≠ 3 / 10 := by
  intro h
  rw [hourInCycle, qmod, period] at h
  have h2 : (hourOf t : ℚ) + (minuteOf t : ℚ) / 60 -
      1242 / 100 * (⌊((hourOf t : ℚ) + (minuteOf t : ℚ) / 60) / (1242 / 100)⌋ : ℚ) =
      3 / 10 * (1242 / 100) := by
    rw [div_eq_iff (show (1242 / 100 : ℚ) ≠ 0 by norm_num)] at h
    linarith
  have h3 : (1500 : ℚ) * (hourOf t : ℚ) + 25 * (minuteOf t : ℚ) -
      18630 * (⌊((hourOf t : ℚ) + (minuteOf t : ℚ) / 60) / (1242 / 100)⌋ : ℚ) =
      5589 := by linarith
  have h4 : (1500 : ℤ) * (hourOf t : ℤ) + 25 * (minuteOf t : ℤ) -
      18630 * ⌊((hourOf t : ℚ) + (minuteOf t : ℚ) / 60) / (1242 / 100)⌋ = 5589 := by
    exact_mod_cast h3
  omega

/-- C5 counterexample: at latitude `9.005` and instant `0` the stored current
height is `round(1.99005, 2) = 1.99`, not the exact piecewise-linear value
`1.99005` the claim asserts. -/
theorem claim_C5_counterexample :
    (generate_simulated_tidal_data (1801/200) 0 0).current.height ≠
      3/2 + amplitude (1801/200) *
        (-1 * ((hourInCycle 0 / period * 2 * pyPi - pyPi / 2) / pyPi)) := by
  rw [current_height_sample, amplitude_sample, hourInCycle_zero, period, pyPi]
  norm_num

/-- C5 (amended): the simulator's current tide height is the piecewise-linear
formula — `baseline + amplitude * (-(normalized_time - pyPi/2)/pyPi)` when
rising, the negated branch when falling, with `pyPi = 3.14159` — passed
through the source's 2-decimal rounding; and at a concrete input it differs
from the (equally rounded) true-sine formula used for the chart series. -/
theorem claim_C5_amended :
    (∀ (lat lon : ℚ) (t : ℕ),
      (generate_simulated_tidal_data lat lon t).current.height =
        pyRound2 (3/2 + amplitude lat *
          (if hourInCycle t < period / 2
           then -1 * ((hourInCycle t / period * 2 * pyPi - pyPi / 2) / pyPi)
           else (hourInCycle t / period * 2 * pyPi - pyPi / 2) / pyPi))) ∧
    (((generate_simulated_tidal_data (1801/200) 0 0).current.height : ℝ) ≠
      pyRound2R (((3/2 : ℚ) : ℝ) + ((amplitude (1801/200) : ℚ) : ℝ) *
        Real.sin ((hourInCycle 0 / period * 2 * pyPi : ℚ) : ℝ))) := by
  constructor
  · intro lat lon t
    by_cases hr : hourInCycle t < period / 2
    · simp only [generate_simulated_tidal_data, if_pos hr, normalizedTime, baseline]
    · simp only [generate_simulated_tidal_data, if_neg hr, normalizedTime, baseline]
  · rw [current_height_sample]
    rw [show ((hourInCycle 0 / period * 2 * pyPi : ℚ) : ℝ) = 0 by
      rw [hourInCycle_zero]; norm_num]
    rw [Real.sin_zero, mul_zero, add_zero]
    rw [pyRound2R]
    norm_num

/-- C6: the simulated current status is "Near High" exactly when
`hour_in_cycle` lies strictly within ±20% of the half-period mark; otherwise
"Mid" exactly when `hour_in_cycle / period` lies in `[0.3, 0.7)` (the
boundary `0.3` is unattainable from integer hours and minutes, so the
half-open interval of the claim coincides with the source's open one);
otherwise "Near Low". -/
theorem claim_C6 (lat lon : ℚ) (t : ℕ) :
    ((generate_simulated_tidal_data lat lon t).current.status = "Near High" ↔
      (8/10 * period / 2 < hourInCycle t ∧ hourInCycle t < 12/10 * period / 2)) ∧
    ((generate_simulated_tidal_data lat lon t).current.status = "Mid" ↔
      (¬ (8/10 * period / 2 < hourInCycle t ∧
          hourInCycle t < 12/10 * period / 2) ∧
       (3/10 ≤ hourInCycle t / period ∧ hourInCycle t / period < 7/10))) ∧
    ((generate_simulated_tidal_data lat lon t).current.status = "Near Low" ↔
      (¬ (8/10 * period / 2 < hourInCycle t ∧
          hourInCycle t < 12/10 * period / 2) ∧
       ¬ (3/10 ≤ hourInCycle t / period ∧ hourInCycle t / period < 7/10))) := by
  have hst : (generate_simulated_tidal_data lat lon t).current.status =
      (if (8/10 * period / 2 < hourInCycle t ∧ hourInCycle t < 12/10 * period / 2)
       then "Near High"
       else if (3/10 < hourInCycle t / period ∧ hourInCycle t / period < 7/10)
       then "Mid" else "Near Low") := by
    simp only [generate_simulated_tidal_data]
  have hb : (3/10 < hourInCycle t / period ∧ hourInCycle t / period < 7/10) ↔
      (3/10 ≤ hourInCycle t / period ∧ hourInCycle t / period < 7/10) := by
    constructor
    · exact fun h => ⟨le_of_lt h.1, h.2⟩
    · rintro ⟨h1, h2⟩
      refine ⟨lt_of_le_of_ne h1 ?_, h2⟩
      exact fun heq => hourInCycle_div_period_ne_three_tenths t heq.symm
  rw [hst]
  by_cases h1 : (8/10 * period / 2 < hourInCycle t ∧
      hourInCycle t < 12/10 * period / 2)
  · rw [if_pos h1]
    exact ⟨iff_of_true rfl h1,
      iff_of_false (by decide) (fun hc => hc.1 h1),
      iff_of_false (by decide) (fun hc => hc.1 h1)⟩
  · rw [if_neg h1]
    by_cases h2 : (3/10 < hourInCycle t / period ∧ hourInCycle t / period < 7/10)
    · rw [if_pos h2]
      exact ⟨iff_of_false (by decide) h1,
        iff_of_true rfl ⟨h1, hb.mp h2⟩,
        iff_of_false (by decide) (fun hc => hc.2 (hb.mp h2))⟩
    · rw [if_neg h2]
      exact ⟨iff_of_false (by decide) h1,
        iff_of_false (by decide) (fun hc => h2 (hb.mpr hc.2)),
        iff_of_true rfl ⟨h1, fun hx => h2 (hb.mpr hx)⟩⟩

lemma pyRound2R_eq_of_bounds (x : ℝ) (m : ℤ)
    (h1 : (m : ℝ) + 1/2 < x * 100) (h2 : x * 100 < (m : ℝ) + 1) :
    pyRound2R x = ((m : ℝ) + 1) / 100 := by
  have hfl : ⌊x * 100⌋ = m := by
    rw [Int.floor_eq_iff]
    constructor
    · linarith
    · linarith
  rw [pyRound2R]
  simp only [hfl]
  split_ifs with ha hb hc
  · exfalso
    linarith
  · rfl
  · exfalso
    linarith
  · exfalso
    linarith

lemma hourInCycle_six : hourInCycle 6 = 1/10 := by
  norm_num [hourInCycle, hourOf, minuteOf, qmod, period]

lemma amplitude_five : amplitude 5 = 9/10 := by
  rw [amplitude, qmod, abs_of_pos (show (0 : ℚ) < 5 by norm_num)]
  norm_num

/-- C3 counterexample: at latitude `5` and instant `6` (00:06), the first
chart point's stored height is `round(1.5 + 0.9 * sin(nt), 2) = 1.55`
(the source rounds chart heights to 2 decimals), while the exact sine
value `1.5 + 0.9 * sin(nt)` lies strictly between `1.545495` and
`1.545531`, so the stored height does not equal the unrounded sine
formula the claim asserts. -/
theorem claim_C3_counterexample :
    (generate_simulated_tidal_data 5 0 6).chart_data[0]?.map ChartPoint.height ≠
      some (((3/2 : ℚ) : ℝ) + ((amplitude 5 : ℚ) : ℝ) *
        Real.sin ((hourInCycle 6 / period * 2 * pyPi : ℚ) : ℝ)) := by
  have hpt : (generate_simulated_tidal_data 5 0 6).chart_data[0]? =
      some ⟨6, pyRound2R (((3/2 : ℚ) : ℝ) + ((amplitude 5 : ℚ) : ℝ) *
        Real.sin ((hourInCycle 6 / period * 2 * pyPi : ℚ) : ℝ)), "High"⟩ := by
    simp [generate_simulated_tidal_data, List.getElem?_map, List.getElem?_range,
      normalizedTime, baseline]
  rw [hpt]
  intro hEq0
  rw [Option.map_some'] at hEq0
  have hEq := Option.some.inj hEq0
  dsimp only at hEq
  have h32 : ((3/2 : ℚ) : ℝ) = (3/2 : ℝ) := by norm_num
  have hθR : ((hourInCycle 6 / period * 2 * pyPi : ℚ) : ℝ) =
      (314159/6210000 : ℝ) := by
    rw [hourInCycle_six, period, pyPi]
    push_cast
    norm_num
  have hampR : ((amplitude 5 : ℚ) : ℝ) = (9/10 : ℝ) := by
    rw [amplitude_five]
    push_cast
    ring
  rw [h32, hθR, hampR] at hEq
  have hcpos : (0 : ℝ) < 314159/6210000 := by norm_num
  have hc1 : (314159/6210000 : ℝ) ≤ 1 := by norm_num
  have hup := Real.sin_lt hcpos
  have hlo := Real.sin_gt_sub_cube hcpos hc1
  have hb1 : (5055/100000 : ℝ) <
      (314159/6210000 : ℝ) - (314159/6210000 : ℝ) ^ 3 / 4 := by
    norm_num
  have hb2 : (314159/6210000 : ℝ) < 5059/100000 := by norm_num
  have h1 : ((154 : ℤ) : ℝ) + 1/2 <
      ((3/2 : ℝ) + (9/10 : ℝ) * Real.sin (314159/6210000 : ℝ)) * 100 := by
    push_cast
    linarith [hlo, hb1]
  have h2 : ((3/2 : ℝ) + (9/10 : ℝ) * Real.sin (314159/6210000 : ℝ)) * 100 <
      ((154 : ℤ) : ℝ) + 1 := by
    push_cast
    linarith [hup, hb2]
  have hround := pyRound2R_eq_of_bounds _ 154 h1 h2
  rw [hEq] at hround
  push_cast at hround
  linarith [hup, hb2]

/-- C3 (amended): the simulated chart series has exactly 96 points; point `i`
sits at `now + 30 * i` minutes (the first at `now`), its height is the
true-sine formula `1.5 + amplitude * sin(normalized_time)` rounded to two
decimal places as the source stores it, with `normalized_time` derived from
that point's own hour-and-minute of day modulo the 12.42-hour period, and it
is tagged High when `i % 12 = 0` with `i / 12` even, Low when `i % 12 = 0`
with `i / 12` odd, Normal otherwise. -/
theorem claim_C3_amended (lat lon : ℚ) (t : ℕ) :
    (generate_simulated_tidal_data lat lon t).chart_data.length = 96 ∧
    ∀ i : Fin 96,
      (generate_simulated_tidal_data lat lon t).chart_data[(i : ℕ)]? =
        some ⟨t + 30 * i,
          pyRound2R (((3/2 : ℚ) : ℝ) + (amplitude lat : ℝ) *
            Real.sin ((hourInCycle (t + 30 * i) / period * 2 * pyPi : ℚ) : ℝ)),
          if (i : ℕ) % 12 = 0 then
            (if (i : ℕ) / 12 % 2 = 0 then "High" else "Low")
          else "Normal"⟩ := by
  constructor
  · simp [generate_simulated_tidal_data]
  · intro i
    simp [generate_simulated_tidal_data, List.getElem?_map, List.getElem?_range,
      i.isLt, normalizedTime, baseline]

/-- C4 counterexample: at latitude `9.005` and instant `0` the first forecast
event is a Low, yet its stored height is `round(baseline - amplitude, 2)`
= `0.52`, not the exact extreme `baseline - amplitude = 0.5199` the claim
asserts. -/
theorem claim_C4_counterexample :
    ((generate_simulated_tidal_data (1801/200) 0 0).forecast[0]?.map
        ForecastEvent.type = some "Low") ∧
    ((generate_simulated_tidal_data (1801/200) 0 0).forecast[0]?.map
        ForecastEvent.height ≠ some (baseline - amplitude (1801/200))) := by
  have hic : hourInCycle 0 = 0 := by
    norm_num [hourInCycle, hourOf, minuteOf, qmod, period]
  have hamp : amplitude (1801/200) = 9801/10000 := by
    rw [amplitude, qmod, abs_of_pos (show (0 : ℚ) < 1801/200 by norm_num)]
    norm_num
  have hr : hourInCycle 0 < period / 2 := by
    rw [hic]; norm_num [period]
  constructor
  · simp [generate_simulated_tidal_data, hr]
  · simp only [generate_simulated_tidal_data, hr, if_pos, if_true]
    simp only [List.getElem?_cons_zero, Option.map_some]
    simp only [hamp, baseline, pyRound2]
    norm_num

/-- C4 (amended): the simulated forecast has exactly 4 events with strictly
alternating types; the first event's type is Low iff currently rising, event
`i` occurs `hours_to_next + i * period/2` hours after `now` (with
`hours_to_next` as the claim states), and every event's height is the
extreme `baseline ∓ amplitude` passed through the source's 2-decimal
rounding (Low: `round(baseline - amplitude, 2)`, High:
`round(baseline + amplitude, 2)`). -/
theorem claim_C4_amended (lat lon : ℚ) (t : ℕ) :
    (generate_simulated_tidal_data lat lon t).forecast.length = 4 ∧
    List.Chain' (fun a b => a.type ≠ b.type)
      (generate_simulated_tidal_data lat lon t).forecast ∧
    ((generate_simulated_tidal_data lat lon t).forecast[0]?.map
        ForecastEvent.type =
      some (if hourInCycle t < period / 2 then "Low" else "High")) ∧
    (∀ i : Fin 4,
      (generate_simulated_tidal_data lat lon t).forecast[(i : ℕ)]?.map
          ForecastEvent.time =
        some ((t : ℚ) +
          (if hourInCycle t < period / 2 then period / 2 - hourInCycle t
           else period - hourInCycle t) * 60 + period / 2 * (i : ℕ) * 60)) ∧
    (∀ e ∈ (generate_simulated_tidal_data lat lon t).forecast,
      (e.type = "Low" ∧ e.height = pyRound2 (3/2 - amplitude lat)) ∨
      (e.type = "High" ∧ e.height = pyRound2 (3/2 + amplitude lat))) := by
  have h3 : List.range' 1 3 = [1, 2, 3] := rfl
  by_cases hr : hourInCycle t < period / 2
  · have hfore : (generate_simulated_tidal_data lat lon t).forecast =
        [⟨"Low", (t : ℚ) + (period / 2 - hourInCycle t) * 60,
          pyRound2 (baseline - amplitude lat)⟩,
         ⟨"High", (t : ℚ) + (period / 2 - hourInCycle t) * 60 +
            period / 2 * ((1 : ℕ) : ℚ) * 60,
          pyRound2 (baseline + amplitude lat)⟩,
         ⟨"Low", (t : ℚ) + (period / 2 - hourInCycle t) * 60 +
            period / 2 * ((2 : ℕ) : ℚ) * 60,
          pyRound2 (baseline - amplitude lat)⟩,
         ⟨"High", (t : ℚ) + (period / 2 - hourInCycle t) * 60 +
            period / 2 * ((3 : ℕ) : ℚ) * 60,
          pyRound2 (baseline + amplitude lat)⟩] := by
      simp only [generate_simulated_tidal_data, h3, List.map_cons, List.map_nil,
        if_pos hr]
      norm_num [show ¬("High" = "Low") from by decide,
        show ¬("Low" = "High") from by decide]
    refine ⟨by rw [hfore]; rfl, ?_, ?_, ?_, ?_⟩
    · rw [hfore]
      simp [List.chain'_cons, show ("Low" : String) ≠ "High" from by decide,
        show ("High" : String) ≠ "Low" from by decide]
    · rw [hfore]
      simp [hr]
    · intro i
      rw [hfore]
      fin_cases i <;> simp [hr]
    · intro e he
      rw [hfore] at he
      simp only [List.mem_cons, List.not_mem_nil, or_false] at he
      rcases he with rfl | rfl | rfl | rfl <;> simp [baseline]
  · have hfore : (generate_simulated_tidal_data lat lon t).forecast =
        [⟨"High", (t : ℚ) + (period - hourInCycle t) * 60,
          pyRound2 (baseline + amplitude lat)⟩,
         ⟨"Low", (t : ℚ) + (period - hourInCycle t) * 60 +
            period / 2 * ((1 : ℕ) : ℚ) * 60,
          pyRound2 (baseline - amplitude lat)⟩,
         ⟨"High", (t : ℚ) + (period - hourInCycle t) * 60 +
            period / 2 * ((2 : ℕ) : ℚ) * 60,
          pyRound2 (baseline + amplitude lat)⟩,
         ⟨"Low", (t : ℚ) + (period - hourInCycle t) * 60 +
            period / 2 * ((3 : ℕ) : ℚ) * 60,
          pyRound2 (baseline - amplitude lat)⟩] := by
      simp only [generate_simulated_tidal_data, h3, List.map_cons, List.map_nil,
        if_neg hr]
      norm_num [show ¬("High" = "Low") from by decide,
        show ¬("Low" = "High") from by decide]
    refine ⟨by rw [hfore]; rfl, ?_, ?_, ?_, ?_⟩
    · rw [hfore]
      simp [List.chain'_cons, show ("Low" : String) ≠ "High" from by decide,
        show ("High" : String) ≠ "Low" from by decide]
    · rw [hfore]
      simp [hr]
    · intro i
      rw [hfore]
      fin_cases i <;> simp [hr]
    · intro e he
      rw [hfore] at he
      simp only [List.mem_cons, List.not_mem_nil, or_false] at he
      rcases he with rfl | rfl | rfl | rfl <;> simp [baseline]

end NSWTidal
